import Mathlib

/-!
Shallow embedding of `src/index.js` of the audio-transcription worker.

The source file contains two deployment variants of the same worker,
separated by a document separator:
* variant 1 (two providers): `handleUpload` dispatches a WhisperX job and a
  Pyannote job via Replicate and `handleWebhook` aggregates the two callbacks
  (source lines 1-369);
* variant 2 (single provider): `handleUpload` dispatches one RunPod job and
  `handleWebhook` stores its single result (source lines 370-671).

Modelling conventions:
* the two R2 buckets are total maps `String → Option v` (last-write-wins put);
* JSON payload fields are carried structurally; `data.output` is modelled as
  its serialized text (the `JSON.stringify(data.output, null, 2)` the code
  stores), so a stored partial result is that string verbatim;
* `fetch` rejections (network exceptions) are environment oracles; an HTTP
  response that arrives, of any status, is not an exception;
* each handler returns its HTTP response (`none` when an exception escapes
  the handler), the new store, the outbound side-effect events it attempted
  (Slack webhook posts, Apps-Script handoff calls), and a log of bucket
  writes; `bothCompleted` mirrors the `Both jobs completed!` log of the
  two-provider completion branch.
-/

namespace AudioWorker

/-- A plain-text HTTP response of the webhook handler: status and body. -/
structure HttpResp where
  status : Nat
  body : String
deriving DecidableEq, Repr

/-- Last-write-wins `put` on a bucket modelled as a total map. -/
def putMap {α : Type} (m : String → Option α) (k : String) (v : α) : String → Option α :=
  fun x => if x = k then some v else m x

/-- The job record written by the two-provider `handleUpload` to
`jobs/<jobId>.json` (source lines 164-174). -/
structure JobRecord where
  jobId : String
  whisperxId : String
  pyannoteId : String
  client : String
  vid : String
  numSpeakers : String
  createdAt : String
deriving DecidableEq, Repr

/-- A value stored in the AUDIO bucket: either raw media bytes with their
content type, or a job record (stored as JSON; the round-trip through
`JSON.stringify`/`JSON.parse` is modelled structurally). -/
inductive AudioVal where
  | media (content : String) (contentType : String)
  | jobRec (record : JobRecord)
deriving DecidableEq, Repr

/-- The two R2 buckets: `AUDIO_BUCKET` and `RESULT_BUCKET`. -/
structure Store where
  audio : String → Option AudioVal
  result : String → Option String

/-- A store with both buckets empty. -/
def emptyStore : Store := ⟨fun _ => none, fun _ => none⟩

/-- One `put` performed on one of the two buckets. -/
inductive BucketWrite where
  | audioPut (key : String)
  | resultPut (key : String)
deriving DecidableEq, Repr

/-- Outbound side-effect events attempted by the webhook handler. -/
inductive Event where
  /-- A `sendSlack` post: job id, status tag, optional file name or URL,
  optional error text. -/
  | slack (jobId status : String) (fileNameOrUrl : Option String) (error : Option String)
  /-- The Apps-Script (Google Drive) handoff call with its JSON body fields. -/
  | gasCall (filePath fileName client vid : String)
  /-- The raw Slack post sent on Drive success by the two-provider handler
  (source lines 307-317). -/
  | driveSlack (jsonUrl srtUrl path : String)
deriving DecidableEq, Repr

/-- Outbound provider-dispatch events attempted by `handleUpload`. -/
inductive UpEvent where
  | providerCall (provider : String)
deriving DecidableEq, Repr

/-- JavaScript template-literal rendering of a nullable string
(`null` prints as "null"). -/
def jsNullableText : Option String → String
  | none => "null"
  | some s => s

/-- JavaScript `x || d` on a nullable string: `null`, `undefined` and the
empty string are falsy. -/
def jsOr (o : Option String) (d : String) : String :=
  match o with
  | none => d
  | some s => if s = "" then d else s

/-- JavaScript truthiness of a nullable form-data string field
(`formData.get` returns `null` when absent; the empty string is falsy). -/
def truthyOpt : Option String → Bool
  | none => false
  | some s => !(s == "")

/-- Key of the job record for a job: `jobs/<jobId>.json`. -/
def jobsKey (jobId : String) : String := "jobs/" ++ jobId ++ ".json"

/-- The `projects/<client>/<vid>/<seg>` path template used for media and
result objects. -/
def projectPath (client vid seg : String) : String :=
  "projects/" ++ client ++ "/" ++ vid ++ "/" ++ seg

/-- File name of a partial result written by the two-provider webhook:
`<type>_<jobId>.json` where `type` is the `?type=` query parameter
(source line 265). -/
def resultFileName (typeParam : Option String) (jobId : String) : String :=
  jsNullableText typeParam ++ "_" ++ (jobId ++ ".json")

/-- Path checked for the WhisperX partial result (source line 275). -/
def whisperxPath (client vid jobId : String) : String :=
  projectPath client vid ("whisperx_" ++ (jobId ++ ".json"))

/-- Path checked for the Pyannote partial result (source line 276). -/
def pyannotePath (client vid jobId : String) : String :=
  projectPath client vid ("pyannote_" ++ (jobId ++ ".json"))

/-! ## The resilient HTTP client (`retryFetch`, source lines 11-26) -/

/-- Outcome of one `fetch` attempt: the promise rejects (network exception)
or resolves to a response with the given status code. -/
inductive Attempt where
  | throws
  | resp (status : Nat)
deriving DecidableEq, Repr

/-- Outcome of a whole `retryFetch` call. `undef` is the JavaScript
`undefined` returned when the loop body never runs (`maxRetries = 0`). -/
inductive RetryResult where
  | returned (status : Nat)
  | threw
  | undef
deriving DecidableEq, Repr

/-- `Response.ok`: status in the inclusive range 200-299. -/
def respOk (s : Nat) : Bool := 200 ≤ s && s ≤ 299

/-- The `for (let i = 0; i < maxRetries; i++)` loop of `retryFetch`.
`fetchAt i` is the outcome of the attempt with loop index `i`; `remaining`
is the number of loop iterations left (`maxRetries - i`), used as structural
fuel. Returns the overall outcome, the number of attempts made, and the list
of backoff delays (`1000 * (i + 1)` milliseconds) awaited between attempts. -/
def retryFetchAux (fetchAt : Nat → Attempt) (maxRetries : Nat) :
    Nat → Nat → RetryResult × Nat × List Nat
  | _, 0 => (.undef, 0, [])
  | i, remaining + 1 =>
    match fetchAt i with
    | .resp s =>
      if respOk s then (.returned s, 1, [])
      else if 500 ≤ s ∧ i < maxRetries - 1 then
        let r := retryFetchAux fetchAt maxRetries (i + 1) remaining
        (r.1, r.2.1 + 1, 1000 * (i + 1) :: r.2.2)
      else (.returned s, 1, [])
    | .throws =>
      if i = maxRetries - 1 then (.threw, 1, [])
      else
        let r := retryFetchAux fetchAt maxRetries (i + 1) remaining
        (r.1, r.2.1 + 1, 1000 * (i + 1) :: r.2.2)

/-- `retryFetch(url, options, maxRetries)`: run the loop from `i = 0`. -/
def retryFetch (fetchAt : Nat → Attempt) (maxRetries : Nat) :
    RetryResult × Nat × List Nat :=
  retryFetchAux fetchAt maxRetries 0 maxRetries

/-! ## Upload handlers -/

/-- The `audio` multipart field: a `File` (always truthy when present). -/
structure UploadFile where
  content : String
  contentType : String
deriving DecidableEq, Repr

/-- Form data of the two-provider `handleUpload` (source lines 68-72). -/
structure Form1 where
  audio : Option UploadFile
  client : Option String
  vid : Option String
  numSpeakers : Option String
deriving DecidableEq, Repr

/-- Form data of the single-provider `handleUpload` (source lines 437-440). -/
structure Form2 where
  audio : Option UploadFile
  client : Option String
  vid : Option String
deriving DecidableEq, Repr

/-- Outcome of a whole `retryFetch` call to a Replicate endpoint, as seen by
the two-provider `handleUpload`: the call threw after exhausting retries, or
a response arrived with `ok` mirroring `response.ok` and `id` the `id` field
of its parsed JSON body. -/
inductive ReplicateResp where
  | throws
  | resp (ok : Bool) (id : String)
deriving DecidableEq, Repr

/-- Outcome of the `retryFetch` call to RunPod in the single-provider
`handleUpload`; the parsed body's `id` field may be absent or empty. -/
inductive RunpodResp where
  | throws
  | resp (ok : Bool) (id : Option String)
deriving DecidableEq, Repr

/-- Environment of the two-provider `handleUpload`: the generated UUID, the
outcomes of the two provider dispatch calls, and the dispatch timestamp. -/
structure UploadEnv1 where
  jobId : String
  whisperx : ReplicateResp
  pyannote : ReplicateResp
  createdAt : String

/-- Environment of the single-provider `handleUpload`. -/
structure UploadEnv2 where
  jobId : String
  runpod : RunpodResp

/-- JSON body of an upload response. -/
inductive UploadBody where
  /-- `{error}` body of a 400 or 500 `jsonResponse`. -/
  | errorMsg (error : String)
  /-- `{jobId, whisperxId, pyannoteId, message: 'Jobs started'}` (two-provider). -/
  | jobsStarted (jobId whisperxId pyannoteId : String)
  /-- `{jobId, message: 'Job started'}` (single-provider). -/
  | jobStarted (jobId : String)
deriving DecidableEq, Repr

/-- An upload `jsonResponse`: HTTP status plus JSON body. -/
structure UploadHttpResp where
  status : Nat
  body : UploadBody
deriving DecidableEq, Repr

/-- Result of an upload handler run: response, new store, provider dispatch
calls attempted, bucket writes performed. -/
structure UploadResult where
  response : UploadHttpResp
  store : Store
  events : List UpEvent
  writes : List BucketWrite

/-- The two-provider `handleUpload` (source lines 65-189). -/
def handleUpload1 (env : UploadEnv1) (st : Store) (form : Form1) : UploadResult :=
  if form.audio.isNone then
    ⟨⟨400, .errorMsg "No audio file"⟩, st, [], []⟩
  else if !(truthyOpt form.client && truthyOpt form.vid) then
    ⟨⟨400, .errorMsg "client and vid are required"⟩, st, [], []⟩
  else if !truthyOpt form.numSpeakers then
    ⟨⟨400, .errorMsg "num_speakers is required"⟩, st, [], []⟩
  else
    let client := form.client.getD ""
    let vid := form.vid.getD ""
    let numSpeakers := form.numSpeakers.getD ""
    let audioFile := form.audio.getD ⟨"", ""⟩
    let audioFileName := projectPath client vid (env.jobId ++ ".wav")
    let ct := if audioFile.contentType = "" then "audio/wav" else audioFile.contentType
    let st1 : Store := { st with audio := putMap st.audio audioFileName (.media audioFile.content ct) }
    let w1 := [BucketWrite.audioPut audioFileName]
    match env.whisperx with
    | .throws =>
      ⟨⟨500, .errorMsg "fetch failed"⟩, st1, [.providerCall "whisperx"], w1⟩
    | .resp wok wid =>
      if !wok then
        ⟨⟨500, .errorMsg "Replicate WhisperX error"⟩, st1, [.providerCall "whisperx"], w1⟩
      else
        match env.pyannote with
        | .throws =>
          ⟨⟨500, .errorMsg "fetch failed"⟩, st1,
           [.providerCall "whisperx", .providerCall "pyannote"], w1⟩
        | .resp pok pid =>
          if !pok then
            ⟨⟨500, .errorMsg "Replicate Pyannote error"⟩, st1,
             [.providerCall "whisperx", .providerCall "pyannote"], w1⟩
          else
            let record : JobRecord :=
              ⟨env.jobId, wid, pid, client, vid, numSpeakers, env.createdAt⟩
            let st2 : Store :=
              { st1 with audio := putMap st1.audio (jobsKey env.jobId) (.jobRec record) }
            ⟨⟨200, .jobsStarted env.jobId wid pid⟩, st2,
             [.providerCall "whisperx", .providerCall "pyannote"],
             w1 ++ [BucketWrite.audioPut (jobsKey env.jobId)]⟩

/-- The single-provider `handleUpload` (source lines 434-507). It persists
the media object and dispatches the single RunPod job, but writes no job
record; its success body is `{jobId: runpodData.id || jobId, message}`. -/
def handleUpload2 (env : UploadEnv2) (st : Store) (form : Form2) : UploadResult :=
  if form.audio.isNone then
    ⟨⟨400, .errorMsg "No audio file"⟩, st, [], []⟩
  else if !(truthyOpt form.client && truthyOpt form.vid) then
    ⟨⟨400, .errorMsg "client and vid are required"⟩, st, [], []⟩
  else
    let client := form.client.getD ""
    let vid := form.vid.getD ""
    let audioFile := form.audio.getD ⟨"", ""⟩
    let audioFileName := projectPath client vid (env.jobId ++ ".wav")
    let ct := if audioFile.contentType = "" then "audio/wav" else audioFile.contentType
    let st1 : Store := { st with audio := putMap st.audio audioFileName (.media audioFile.content ct) }
    let w1 := [BucketWrite.audioPut audioFileName]
    match env.runpod with
    | .throws =>
      ⟨⟨500, .errorMsg "fetch failed"⟩, st1, [.providerCall "runpod"], w1⟩
    | .resp rok rid =>
      if !rok then
        ⟨⟨500, .errorMsg "RunPod error"⟩, st1, [.providerCall "runpod"], w1⟩
      else
        ⟨⟨200, .jobStarted (jsOr rid env.jobId)⟩, st1, [.providerCall "runpod"], w1⟩

/-! ## Webhook handlers -/

/-- A parsed provider callback: the `?type=` query parameter and the fields
of the JSON body the handlers read. `output` is carried as the serialized
text that `JSON.stringify(data.output, null, 2)` produces. -/
structure Callback where
  typeParam : Option String
  status : String
  error : String
  output : String
  inputClient : Option String
  inputVid : Option String
deriving DecidableEq, Repr

/-- Environment of the two-provider `handleWebhook`: whether
`SLACK_WEBHOOK_URL` is configured, which Slack posts of this run reject
(indexed by the order they are attempted), whether `APPS_SCRIPT_URL` is
configured, and the Apps-Script call's outcome. -/
structure Env1 where
  slackConfigured : Bool
  slackThrows : Nat → Bool
  appsScript : Bool
  gasThrows : Bool
  gasSuccess : Bool
  gasJsonUrl : String
  gasSrtUrl : String
  gasPath : String

/-- Environment of the single-provider `handleWebhook`; its `sendSlack` has
no `SLACK_WEBHOOK_URL` guard. -/
structure Env2 where
  slackThrows : Nat → Bool
  appsScript : Bool
  gasThrows : Bool
  gasSuccess : Bool
  gasDriveUrl : String
  gasError : String

/-- Result of a webhook handler run. `response = none` means an exception
escaped the handler. `bothCompleted` mirrors the `Both jobs completed!` log
of the two-provider completion branch (always `false` for variant 2). -/
structure WebhookResult where
  response : Option HttpResp
  store : Store
  events : List Event
  writes : List BucketWrite
  bothCompleted : Bool

/-- Variant-1 `sendSlack` (source lines 335-369): returns without posting
when `SLACK_WEBHOOK_URL` is unset; otherwise attempts the post, which throws
when the underlying `fetch` rejects. Returns (threw, events, next index). -/
def sendSlack1 (env : Env1) (idx : Nat) (jobId status : String)
    (fileNameOrUrl error : Option String) : Bool × List Event × Nat :=
  if env.slackConfigured then
    (env.slackThrows idx, [.slack jobId status fileNameOrUrl error], idx + 1)
  else (false, [], idx)

/-- Variant-2 `sendSlack` (source lines 620-671): always attempts the post. -/
def sendSlack2 (env : Env2) (idx : Nat) (jobId status : String)
    (fileNameOrUrl error : Option String) : Bool × List Event × Nat :=
  (env.slackThrows idx, [.slack jobId status fileNameOrUrl error], idx + 1)

/-- The outer `catch` of the two-provider `handleWebhook` (source lines
328-332): post an ERROR Slack message (which may itself throw, letting the
exception escape) and respond 500 `Error`. -/
def webhookCatch1 (env : Env1) (idx : Nat) (jobId msg : String) (st : Store)
    (evs : List Event) (ws : List BucketWrite) (completed : Bool) : WebhookResult :=
  let r := sendSlack1 env idx jobId "ERROR" none (some msg)
  if r.1 then ⟨none, st, evs ++ r.2.1, ws, completed⟩
  else ⟨some ⟨500, "Error"⟩, st, evs ++ r.2.1, ws, completed⟩

/-- The two-provider `handleWebhook` (source lines 239-333). -/
def handleWebhook1 (env : Env1) (st : Store) (jobId : String) (cb : Callback) :
    WebhookResult :=
  if cb.status ≠ "succeeded" then
    let r := sendSlack1 env 0 jobId "FAILED" none
      (some (jsNullableText cb.typeParam ++ " failed: " ++ cb.error))
    if r.1 then webhookCatch1 env r.2.2 jobId "slack error" st r.2.1 [] false
    else ⟨some ⟨200, "Job failed"⟩, st, r.2.1, [], false⟩
  else
    match st.audio (jobsKey jobId) with
    | none => ⟨some ⟨404, "Job info not found"⟩, st, [], [], false⟩
    | some (.media _ _) =>
      -- `JSON.parse` of a non-record object: modelled as the thrown parse
      -- error reaching the outer catch
      webhookCatch1 env 0 jobId "parse error" st [] [] false
    | some (.jobRec record) =>
      let client := record.client
      let vid := record.vid
      let fileName := resultFileName cb.typeParam jobId
      let filePath := projectPath client vid fileName
      let st1 : Store := { st with result := putMap st.result filePath cb.output }
      let ws := [BucketWrite.resultPut filePath]
      let whisperxExists := (st1.result (whisperxPath client vid jobId)).isSome
      let pyannoteExists := (st1.result (pyannotePath client vid jobId)).isSome
      if whisperxExists && pyannoteExists then
        let r := sendSlack1 env 0 jobId "SUCCESS" (some filePath) none
        if r.1 then webhookCatch1 env r.2.2 jobId "slack error" st1 r.2.1 ws true
        else
          let evs2 :=
            if env.appsScript then
              let gasEv := [Event.gasCall filePath fileName client vid]
              if env.gasThrows then gasEv
              else if env.gasSuccess then
                -- the Drive-success Slack post may reject; the rejection is
                -- swallowed by the inner catch either way
                gasEv ++ [Event.driveSlack env.gasJsonUrl env.gasSrtUrl env.gasPath]
              else gasEv
            else []
          ⟨some ⟨200, "OK"⟩, st1, r.2.1 ++ evs2, ws, true⟩
      else ⟨some ⟨200, "OK"⟩, st1, [], ws, false⟩

/-- The outer `catch` of the single-provider `handleWebhook` (source lines
613-617). -/
def webhookCatch2 (env : Env2) (idx : Nat) (jobId msg : String) (st : Store)
    (evs : List Event) (ws : List BucketWrite) : WebhookResult :=
  let r := sendSlack2 env idx jobId "ERROR" none (some msg)
  if r.1 then ⟨none, st, evs ++ r.2.1, ws, false⟩
  else ⟨some ⟨500, "Error"⟩, st, evs ++ r.2.1, ws, false⟩

/-- The single-provider `handleWebhook` (source lines 557-618): no job-record
lookup at all; `client`/`vid` come from the callback payload with an
`unknown` fallback, and the single result is stored unconditionally on a
`COMPLETED` status. -/
def handleWebhook2 (env : Env2) (st : Store) (jobId : String) (cb : Callback) :
    WebhookResult :=
  if cb.status ≠ "COMPLETED" then
    let r := sendSlack2 env 0 jobId "FAILED" none (some cb.error)
    if r.1 then webhookCatch2 env r.2.2 jobId "slack error" st r.2.1 []
    else ⟨some ⟨200, "Job failed"⟩, st, r.2.1, [], false⟩
  else
    let client := jsOr cb.inputClient "unknown"
    let vid := jsOr cb.inputVid "unknown"
    let fileName := "segments_" ++ (jobId ++ ".json")
    let filePath := projectPath client vid fileName
    let st1 : Store := { st with result := putMap st.result filePath cb.output }
    let ws := [BucketWrite.resultPut filePath]
    let r := sendSlack2 env 0 jobId "SUCCESS" (some filePath) none
    if r.1 then webhookCatch2 env r.2.2 jobId "slack error" st1 r.2.1 ws
    else if env.appsScript then
      let evs1 := r.2.1 ++ [Event.gasCall filePath "segments.json" client vid]
      if env.gasThrows then
        let r2 := sendSlack2 env r.2.2 jobId "DRIVE_FAILED" none (some env.gasError)
        if r2.1 then webhookCatch2 env r2.2.2 jobId "slack error" st1 (evs1 ++ r2.2.1) ws
        else ⟨some ⟨200, "OK"⟩, st1, evs1 ++ r2.2.1, ws, false⟩
      else if env.gasSuccess then
        let r2 := sendSlack2 env r.2.2 jobId "DRIVE_SUCCESS" (some env.gasDriveUrl) none
        if r2.1 then
          let r3 := sendSlack2 env r2.2.2 jobId "DRIVE_FAILED" none (some "slack error")
          if r3.1 then webhookCatch2 env r3.2.2 jobId "slack error" st1 (evs1 ++ r2.2.1 ++ r3.2.1) ws
          else ⟨some ⟨200, "OK"⟩, st1, evs1 ++ r2.2.1 ++ r3.2.1, ws, false⟩
        else ⟨some ⟨200, "OK"⟩, st1, evs1 ++ r2.2.1, ws, false⟩
      else
        let r2 := sendSlack2 env r.2.2 jobId "DRIVE_FAILED" none (some env.gasError)
        if r2.1 then webhookCatch2 env r2.2.2 jobId "slack error" st1 (evs1 ++ r2.2.1) ws
        else ⟨some ⟨200, "OK"⟩, st1, evs1 ++ r2.2.1, ws, false⟩
    else ⟨some ⟨200, "OK"⟩, st1, r.2.1, ws, false⟩

/-- Process a sequence of callbacks for one job through the two-provider
webhook handler, threading the store; returns the final store and the list
of per-callback results (each result's `store` is the store after that
callback). -/
def processTrace (env : Env1) (st : Store) (jobId : String) :
    List Callback → Store × List WebhookResult
  | [] => (st, [])
  | cb :: rest =>
    let r := handleWebhook1 env st jobId cb
    let p := processTrace env r.store jobId rest
    (p.1, r :: p.2)

/-! ## Observables -/

/-- Whether an event is a Slack post with the SUCCESS status tag (the
completion notification). -/
def isSuccessSlack : Event → Bool
  | .slack _ s _ _ => s == "SUCCESS"
  | _ => false

/-- Whether a webhook run attempted the success notification. -/
def hasSuccessSlack (r : WebhookResult) : Bool := r.events.any isSuccessSlack

/-- Whether an event is the Apps-Script (archival) handoff call. -/
def isGasCall : Event → Bool
  | .gasCall _ _ _ _ => true
  | _ => false

/-- Whether a webhook run invoked the archival handoff. -/
def hasGasCall (r : WebhookResult) : Bool := r.events.any isGasCall

/-! ## Store and string lemmas -/

theorem putMap_self {α : Type} (m : String → Option α) (k : String) (v : α) :
    putMap m k v k = some v := by
  simp [putMap]

theorem putMap_ne {α : Type} (m : String → Option α) (k : String) (v : α)
    {x : String} (h : x ≠ k) : putMap m k v x = m x := by
  simp [putMap, h]

theorem putMap_idem {α : Type} (m : String → Option α) (k : String) (v : α) :
    putMap (putMap m k v) k v = putMap m k v := by
  funext x
  by_cases h : x = k <;> simp [putMap, h]

theorem putMap_comm {α : Type} (m : String → Option α) {k1 k2 : String}
    (v1 v2 : α) (h : k1 ≠ k2) :
    putMap (putMap m k1 v1) k2 v2 = putMap (putMap m k2 v2) k1 v1 := by
  funext x
  by_cases h1 : x = k1 <;> by_cases h2 : x = k2 <;>
    simp_all [putMap]

theorem string_append_left_cancel {a b c : String} (h : a ++ b = a ++ c) :
    b = c := by
  have hd : a.data ++ b.data = a.data ++ c.data := congrArg String.data h
  exact String.ext (List.append_cancel_left hd)

theorem whisperxPath_ne_pyannotePath (client vid jobId : String) :
    whisperxPath client vid jobId ≠ pyannotePath client vid jobId := by
  intro h
  unfold whisperxPath pyannotePath projectPath at h
  have h2 : ("whisperx_" ++ (jobId ++ ".json") : String) =
      "pyannote_" ++ (jobId ++ ".json") := string_append_left_cancel h
  have hd : ("whisperx_" : String).data ++ (jobId ++ ".json").data =
      ("pyannote_" : String).data ++ (jobId ++ ".json").data :=
    congrArg String.data h2
  have : ("whisperx_" : String).data = ("pyannote_" : String).data :=
    List.append_cancel_right hd
  exact absurd this (by decide)

/-- When the callback's discriminator is `whisperx`, the written result path
is the WhisperX completion-check path. -/
theorem filePath_whisperx (client vid jobId : String) :
    projectPath client vid (resultFileName (some "whisperx") jobId) =
      whisperxPath client vid jobId := rfl

/-- When the callback's discriminator is `pyannote`, the written result path
is the Pyannote completion-check path. -/
theorem filePath_pyannote (client vid jobId : String) :
    projectPath client vid (resultFileName (some "pyannote") jobId) =
      pyannotePath client vid jobId := rfl

/-! ## Characterization lemmas for the two-provider webhook handler -/

/-- The two-provider webhook handler never writes the AUDIO bucket. -/
theorem handleWebhook1_audio (env : Env1) (st : Store) (jobId : String)
    (cb : Callback) : (handleWebhook1 env st jobId cb).store.audio = st.audio := by
  unfold handleWebhook1 webhookCatch1 sendSlack1
  dsimp only
  split <;> [skip; split] <;> (try dsimp only) <;> first
    | rfl
    | (split_ifs <;> rfl)

/-- A non-success callback leaves the store untouched, performs no bucket
write, never attempts the success notification or the handoff, and never
reports completion. -/
theorem handleWebhook1_failure (env : Env1) (st : Store) (jobId : String)
    (cb : Callback) (h : cb.status ≠ "succeeded") :
    (handleWebhook1 env st jobId cb).store = st ∧
    (handleWebhook1 env st jobId cb).writes = [] ∧
    hasSuccessSlack (handleWebhook1 env st jobId cb) = false ∧
    hasGasCall (handleWebhook1 env st jobId cb) = false ∧
    (handleWebhook1 env st jobId cb).bothCompleted = false := by
  unfold handleWebhook1 webhookCatch1 sendSlack1
  rw [if_pos h]
  dsimp only
  split_ifs <;>
    simp_all [hasSuccessSlack, hasGasCall, isSuccessSlack, isGasCall]

/-- A success callback for a job whose record is missing yields the 404
response and changes nothing. -/
theorem handleWebhook1_notFound (env : Env1) (st : Store) (jobId : String)
    (cb : Callback) (hs : cb.status = "succeeded")
    (hrec : st.audio (jobsKey jobId) = none) :
    handleWebhook1 env st jobId cb = ⟨some ⟨404, "Job info not found"⟩, st, [], [], false⟩ := by
  unfold handleWebhook1
  rw [if_neg (by simp [hs]), hrec]

/-- Store shape after a success callback with the job record present: the
serialized output is put at the path derived from the record's tenancy
fields and the callback's discriminator; nothing else changes. -/
theorem handleWebhook1_success_store (env : Env1) (st : Store) (jobId : String)
    (cb : Callback) (record : JobRecord) (hs : cb.status = "succeeded")
    (hrec : st.audio (jobsKey jobId) = some (.jobRec record)) :
    (handleWebhook1 env st jobId cb).store =
      { st with
          result := putMap st.result
            (projectPath record.client record.vid (resultFileName cb.typeParam jobId))
            cb.output } := by
  unfold handleWebhook1 webhookCatch1 sendSlack1
  rw [if_neg (by simp [hs]), hrec]
  dsimp only
  split_ifs <;> rfl

/-- Writes performed by a success callback with the job record present. -/
theorem handleWebhook1_success_writes (env : Env1) (st : Store) (jobId : String)
    (cb : Callback) (record : JobRecord) (hs : cb.status = "succeeded")
    (hrec : st.audio (jobsKey jobId) = some (.jobRec record)) :
    (handleWebhook1 env st jobId cb).writes =
      [BucketWrite.resultPut
        (projectPath record.client record.vid (resultFileName cb.typeParam jobId))] := by
  unfold handleWebhook1 webhookCatch1 sendSlack1
  rw [if_neg (by simp [hs]), hrec]
  dsimp only
  split_ifs <;> rfl

/-- The completion flag of a success callback run equals the existence check
of both partial-result paths against the post-write result bucket. -/
theorem handleWebhook1_success_completed (env : Env1) (st : Store) (jobId : String)
    (cb : Callback) (record : JobRecord) (hs : cb.status = "succeeded")
    (hrec : st.audio (jobsKey jobId) = some (.jobRec record)) :
    (handleWebhook1 env st jobId cb).bothCompleted =
      (((handleWebhook1 env st jobId cb).store.result
          (whisperxPath record.client record.vid jobId)).isSome &&
       ((handleWebhook1 env st jobId cb).store.result
          (pyannotePath record.client record.vid jobId)).isSome) := by
  rw [handleWebhook1_success_store env st jobId cb record hs hrec]
  unfold handleWebhook1 webhookCatch1 sendSlack1
  rw [if_neg (by simp [hs]), hrec]
  dsimp only
  split_ifs <;> simp_all

/-- A success callback run attempts the success notification exactly when it
reports completion and Slack is configured. -/
theorem handleWebhook1_success_hasSuccess (env : Env1) (st : Store)
    (jobId : String) (cb : Callback) (record : JobRecord)
    (hs : cb.status = "succeeded")
    (hrec : st.audio (jobsKey jobId) = some (.jobRec record)) :
    hasSuccessSlack (handleWebhook1 env st jobId cb) =
      ((handleWebhook1 env st jobId cb).bothCompleted && env.slackConfigured) := by
  unfold handleWebhook1 webhookCatch1 sendSlack1
  rw [if_neg (by simp [hs]), hrec]
  dsimp only
  split_ifs <;>
    simp_all [hasSuccessSlack, isSuccessSlack]

/-- A success callback run invokes the archival handoff exactly when it
reports completion, the success notification did not throw, and the
Apps-Script endpoint is configured. -/
theorem handleWebhook1_success_hasGas (env : Env1) (st : Store)
    (jobId : String) (cb : Callback) (record : JobRecord)
    (hs : cb.status = "succeeded")
    (hrec : st.audio (jobsKey jobId) = some (.jobRec record)) :
    hasGasCall (handleWebhook1 env st jobId cb) =
      ((handleWebhook1 env st jobId cb).bothCompleted &&
       !(env.slackConfigured && env.slackThrows 0) && env.appsScript) := by
  unfold handleWebhook1 webhookCatch1 sendSlack1
  rw [if_neg (by simp [hs]), hrec]
  dsimp only
  split_ifs <;>
    simp_all [hasGasCall, isGasCall]

/-- A success callback whose stored job record is not parseable as a record
(a media object at the `jobs/` key) reaches the catch-all: the store stays
untouched and no write happens. -/
theorem handleWebhook1_badRecord (env : Env1) (st : Store) (jobId : String)
    (cb : Callback) (c t : String) (hs : cb.status = "succeeded")
    (hrec : st.audio (jobsKey jobId) = some (.media c t)) :
    (handleWebhook1 env st jobId cb).store = st ∧
    (handleWebhook1 env st jobId cb).writes = [] := by
  unfold handleWebhook1 webhookCatch1 sendSlack1
  rw [if_neg (by simp [hs]), hrec]
  dsimp only
  split_ifs <;> exact ⟨rfl, rfl⟩

/-- A success callback run with both partial results absent beforehand never
reports completion: its single write can make at most one of the two derived
paths present. -/
theorem handleWebhook1_completed_false_of_absent (env : Env1) (st : Store)
    (jobId : String) (cb : Callback) (record : JobRecord)
    (hs : cb.status = "succeeded")
    (hrec : st.audio (jobsKey jobId) = some (.jobRec record))
    (hwx : st.result (whisperxPath record.client record.vid jobId) = none)
    (hpy : st.result (pyannotePath record.client record.vid jobId) = none) :
    (handleWebhook1 env st jobId cb).bothCompleted = false := by
  rw [handleWebhook1_success_completed env st jobId cb record hs hrec,
      handleWebhook1_success_store env st jobId cb record hs hrec]
  by_cases h1 : whisperxPath record.client record.vid jobId =
      projectPath record.client record.vid (resultFileName cb.typeParam jobId)
  · have h2 : pyannotePath record.client record.vid jobId ≠
        projectPath record.client record.vid (resultFileName cb.typeParam jobId) := by
      intro h2
      exact whisperxPath_ne_pyannotePath record.client record.vid jobId (h1.trans h2.symm)
    simp [putMap, h2, hpy]
  · simp [putMap, h1, hwx]

/-! ## C7 — retry policy of the resilient HTTP client -/

/-- C7: with 3 attempts, a 503 on attempts 1 and 2 followed by a success is
returned after exactly 3 attempts with the strictly increasing delays 1000
and 2000 ms; any 4xx on the first attempt is returned after exactly 1
attempt with no delay; and a 5xx on the final attempt is returned (not
thrown) after 3 attempts. -/
theorem retryFetch_policy :
    (∀ fetchAt s, fetchAt 0 = Attempt.resp 503 → fetchAt 1 = Attempt.resp 503 →
        fetchAt 2 = Attempt.resp s → respOk s = true →
        retryFetch fetchAt 3 = (.returned s, 3, [1000, 2000]) ∧
        List.Chain' (· < ·) [1000, 2000]) ∧
    (∀ fetchAt s, fetchAt 0 = Attempt.resp s → 400 ≤ s → s < 500 →
        retryFetch fetchAt 3 = (.returned s, 1, [])) ∧
    (∀ fetchAt s, fetchAt 0 = Attempt.resp 503 → fetchAt 1 = Attempt.resp 503 →
        fetchAt 2 = Attempt.resp s → 500 ≤ s →
        retryFetch fetchAt 3 = (.returned s, 3, [1000, 2000])) := by
  refine ⟨?_, ?_, ?_⟩
  · intro fetchAt s h0 h1 h2 hok
    refine ⟨?_, by norm_num [List.chain'_cons, List.chain'_singleton]⟩
    simp [retryFetch, retryFetchAux, h0, h1, h2, hok, respOk]
  · intro fetchAt s h0 h400 h500
    have hok : respOk s = false := by
      simp only [respOk, Bool.and_eq_false_iff, decide_eq_false_iff_not, Nat.not_le]
      omega
    have hret : ¬(500 ≤ s ∧ 0 < 3 - 1) := by omega
    simp [retryFetch, retryFetchAux, h0, hok, hret]
    omega
  · intro fetchAt s h0 h1 h2 h5
    have hok : respOk s = false := by
      simp only [respOk, Bool.and_eq_false_iff, decide_eq_false_iff_not, Nat.not_le]
      omega
    have hret : ¬(500 ≤ s ∧ 2 < 3 - 1) := by omega
    simp [retryFetch, retryFetchAux, h0, h1, h2, hok, hret, respOk]

/-- Concrete instantiations of the retry-policy theorem. -/
theorem retryFetch_policy_witness :
    retryFetch (fun i => if i < 2 then Attempt.resp 503 else Attempt.resp 200) 3 =
      (.returned 200, 3, [1000, 2000]) ∧
    retryFetch (fun _ => Attempt.resp 404) 3 = (.returned 404, 1, []) ∧
    retryFetch (fun _ => Attempt.resp 503) 3 = (.returned 503, 3, [1000, 2000]) :=
  ⟨(retryFetch_policy.1 _ 200 rfl rfl rfl (by decide)).1,
   retryFetch_policy.2.1 _ 404 rfl (by decide) (by decide),
   retryFetch_policy.2.2 _ 503 rfl rfl rfl (by decide)⟩

/-! ## C8 — uploads without the audio field are rejected without effects -/

/-- C8: in both deployment variants, an upload whose form data lacks the
audio field gets the 400 `No audio file` error, and the handler performs no
bucket write and no provider dispatch call (store returned unchanged). -/
theorem upload_missing_audio_rejected :
    (∀ env st form, form.audio = none →
        handleUpload1 env st form =
          ⟨⟨400, .errorMsg "No audio file"⟩, st, [], []⟩) ∧
    (∀ env st form, form.audio = none →
        handleUpload2 env st form =
          ⟨⟨400, .errorMsg "No audio file"⟩, st, [], []⟩) := by
  constructor <;> intro env st form h <;>
    simp [handleUpload1, handleUpload2, h]

/-- Concrete instantiation of the missing-audio rejection. -/
theorem upload_missing_audio_rejected_witness :
    (⟨none, some "c", some "v", some "2"⟩ : Form1).audio = none ∧
    handleUpload1 ⟨"j1", .throws, .throws, "t"⟩ emptyStore
        ⟨none, some "c", some "v", some "2"⟩ =
      ⟨⟨400, .errorMsg "No audio file"⟩, emptyStore, [], []⟩ :=
  ⟨rfl, upload_missing_audio_rejected.1 _ _ _ rfl⟩

/-! ## C10 — the two-provider upload additionally requires num_speakers -/

/-- C10: in the two-provider variant, an upload with the audio file and both
tenancy fields but no `num_speakers` field is rejected 400 with the body
error `num_speakers is required`, before any bucket write or provider call. -/
theorem upload_missing_num_speakers_rejected (env : UploadEnv1) (st : Store)
    (form : Form1) (ha : form.audio.isSome = true)
    (hc : truthyOpt form.client = true) (hv : truthyOpt form.vid = true)
    (hn : form.numSpeakers = none) :
    handleUpload1 env st form =
      ⟨⟨400, .errorMsg "num_speakers is required"⟩, st, [], []⟩ := by
  obtain ⟨f, hf⟩ := Option.isSome_iff_exists.mp ha
  have hns : truthyOpt form.numSpeakers = false := by rw [hn]; rfl
  simp [handleUpload1, hf, hc, hv, hns]

/-- Concrete instantiation of the missing-num_speakers rejection. -/
theorem upload_missing_num_speakers_rejected_witness :
    (some (⟨"bytes", "audio/wav"⟩ : UploadFile)).isSome = true ∧
    truthyOpt (some "c") = true ∧ truthyOpt (some "v") = true ∧
    handleUpload1 ⟨"j1", .throws, .throws, "t"⟩ emptyStore
        ⟨some ⟨"bytes", "audio/wav"⟩, some "c", some "v", none⟩ =
      ⟨⟨400, .errorMsg "num_speakers is required"⟩, emptyStore, [], []⟩ :=
  ⟨rfl, rfl, rfl,
   upload_missing_num_speakers_rejected _ _ _ rfl rfl rfl rfl⟩

/-! ## C2 — callbacks for unknown jobs -/

/-- C2 counterexample: the single-provider webhook consults no job record at
all; a `COMPLETED` callback for a job id with no record in the (empty) store
is answered 200 `OK`, and a partial result is written to the result bucket —
not the not-found response and absence of writes the claim asserts. -/
theorem unknown_job_claim_counterexample :
    emptyStore.audio (jobsKey "job1") = none ∧
    (handleWebhook2 ⟨fun _ => false, false, false, false, "", ""⟩ emptyStore "job1"
        ⟨none, "COMPLETED", "", "out", some "c", some "v"⟩).response =
      some ⟨200, "OK"⟩ ∧
    (handleWebhook2 ⟨fun _ => false, false, false, false, "", ""⟩ emptyStore "job1"
        ⟨none, "COMPLETED", "", "out", some "c", some "v"⟩).writes =
      [BucketWrite.resultPut "projects/c/v/segments_job1.json"] :=
  ⟨rfl, rfl, rfl⟩

/-- C2 amended: in the two-provider deployment, a callback whose job id has
no job record performs no write to either bucket and leaves the store
unchanged, and when the callback carries the success status the handler
returns the 404 not-found response (a failure-status callback is answered
before the record is consulted, so it never yields a not-found response;
the single-provider deployment keeps no job records and stores results
without any record check). -/
theorem unknown_job_no_writes (env : Env1) (st : Store) (jobId : String)
    (cb : Callback) (hrec : st.audio (jobsKey jobId) = none) :
    (handleWebhook1 env st jobId cb).writes = [] ∧
    (handleWebhook1 env st jobId cb).store = st ∧
    (cb.status = "succeeded" →
      (handleWebhook1 env st jobId cb).response =
        some ⟨404, "Job info not found"⟩) := by
  by_cases hs : cb.status = "succeeded"
  · rw [handleWebhook1_notFound env st jobId cb hs hrec]
    exact ⟨rfl, rfl, fun _ => rfl⟩
  · obtain ⟨h1, h2, -⟩ := handleWebhook1_failure env st jobId cb hs
    exact ⟨h2, h1, fun h => absurd h hs⟩

/-- Concrete instantiation of the unknown-job behaviour. -/
theorem unknown_job_no_writes_witness :
    emptyStore.audio (jobsKey "j1") = none ∧
    ((handleWebhook1 ⟨false, fun _ => false, false, false, false, "", "", ""⟩
        emptyStore "j1" ⟨some "whisperx", "succeeded", "", "out", none, none⟩).writes = [] ∧
     (handleWebhook1 ⟨false, fun _ => false, false, false, false, "", "", ""⟩
        emptyStore "j1" ⟨some "whisperx", "succeeded", "", "out", none, none⟩).store = emptyStore ∧
     ((⟨some "whisperx", "succeeded", "", "out", none, none⟩ : Callback).status = "succeeded" →
       (handleWebhook1 ⟨false, fun _ => false, false, false, false, "", "", ""⟩
          emptyStore "j1" ⟨some "whisperx", "succeeded", "", "out", none, none⟩).response =
         some ⟨404, "Job info not found"⟩)) :=
  ⟨rfl, unknown_job_no_writes _ _ _ _ rfl⟩

/-! ## C6 — store-state idempotence of duplicate callbacks -/

/-- C6: delivering the same successful callback twice leaves exactly the
store state of delivering it once — the same partial-result objects with the
same contents at the same paths (duplicate notifications are permitted and
not constrained here). -/
theorem duplicate_callback_store_idempotent (env : Env1) (st : Store)
    (jobId : String) (cb : Callback) (hs : cb.status = "succeeded") :
    (handleWebhook1 env (handleWebhook1 env st jobId cb).store jobId cb).store =
      (handleWebhook1 env st jobId cb).store := by
  rcases hrec : st.audio (jobsKey jobId) with _ | val
  · have h1 := handleWebhook1_notFound env st jobId cb hs hrec
    rw [h1]
    show (handleWebhook1 env st jobId cb).store = st
    rw [h1]
  · rcases val with ⟨c, t⟩ | record
    · have h1 := (handleWebhook1_badRecord env st jobId cb c t hs hrec).1
      rw [h1]
      exact h1
    · have hst := handleWebhook1_success_store env st jobId cb record hs hrec
      have hrec2 : (handleWebhook1 env st jobId cb).store.audio (jobsKey jobId) =
          some (.jobRec record) := by
        rw [handleWebhook1_audio]
        exact hrec
      have hst2 := handleWebhook1_success_store env
        (handleWebhook1 env st jobId cb).store jobId cb record hs hrec2
      rw [hst2, hst]
      simp [putMap_idem]

/-- Concrete instantiation of store idempotence. -/
theorem duplicate_callback_store_idempotent_witness :
    (⟨some "whisperx", "succeeded", "", "out", none, none⟩ : Callback).status =
      "succeeded" ∧
    (handleWebhook1 ⟨true, fun _ => false, false, false, false, "", "", ""⟩
        (handleWebhook1 ⟨true, fun _ => false, false, false, false, "", "", ""⟩
          ⟨putMap emptyStore.audio (jobsKey "j1")
             (.jobRec ⟨"j1", "w", "p", "c", "v", "2", "t"⟩), emptyStore.result⟩
          "j1" ⟨some "whisperx", "succeeded", "", "out", none, none⟩).store
        "j1" ⟨some "whisperx", "succeeded", "", "out", none, none⟩).store =
      (handleWebhook1 ⟨true, fun _ => false, false, false, false, "", "", ""⟩
        ⟨putMap emptyStore.audio (jobsKey "j1")
           (.jobRec ⟨"j1", "w", "p", "c", "v", "2", "t"⟩), emptyStore.result⟩
        "j1" ⟨some "whisperx", "succeeded", "", "out", none, none⟩).store :=
  ⟨rfl, duplicate_callback_store_idempotent _ _ _ _ rfl⟩

/-! ## C1 — no success notification without both partial results -/

/-- C1: for a two-provider job, the success notification is attempted only
when both partial-result objects exist in the result bucket at the moment of
the completion check (the returned store, which the handler no longer writes
after that check); in particular, one provider success plus one explicit
provider-failure callback — which writes no partial result — never produces
a success notification, in either delivery order, starting from a state with
neither partial present. -/
theorem success_notification_requires_both_results (env : Env1) (st : Store)
    (jobId : String) (cbS cbF : Callback) (record : JobRecord)
    (hrec : st.audio (jobsKey jobId) = some (.jobRec record)) :
    (∀ cb : Callback, hasSuccessSlack (handleWebhook1 env st jobId cb) = true →
      ((handleWebhook1 env st jobId cb).store.result
          (whisperxPath record.client record.vid jobId)).isSome = true ∧
      ((handleWebhook1 env st jobId cb).store.result
          (pyannotePath record.client record.vid jobId)).isSome = true) ∧
    (cbS.status = "succeeded" → cbF.status ≠ "succeeded" →
     st.result (whisperxPath record.client record.vid jobId) = none →
     st.result (pyannotePath record.client record.vid jobId) = none →
     (∀ r ∈ (processTrace env st jobId [cbS, cbF]).2, hasSuccessSlack r = false) ∧
     (∀ r ∈ (processTrace env st jobId [cbF, cbS]).2, hasSuccessSlack r = false)) := by
  constructor
  · intro cb hS
    by_cases hs : cb.status = "succeeded"
    · have hchar := handleWebhook1_success_hasSuccess env st jobId cb record hs hrec
      rw [hS] at hchar
      have hcomp : (handleWebhook1 env st jobId cb).bothCompleted = true :=
        (Bool.and_eq_true _ _).mp hchar.symm |>.1
      have hiff := handleWebhook1_success_completed env st jobId cb record hs hrec
      rw [hcomp] at hiff
      exact ⟨((Bool.and_eq_true _ _).mp hiff.symm).1,
             ((Bool.and_eq_true _ _).mp hiff.symm).2⟩
    · have := (handleWebhook1_failure env st jobId cb hs).2.2.1
      rw [hS] at this
      exact absurd this (by simp)
  · intro hsS hsF hwx hpy
    have hcompS := handleWebhook1_completed_false_of_absent env st jobId cbS record
      hsS hrec hwx hpy
    have hsuccS : hasSuccessSlack (handleWebhook1 env st jobId cbS) = false := by
      rw [handleWebhook1_success_hasSuccess env st jobId cbS record hsS hrec, hcompS]
      rfl
    have hsuccF : hasSuccessSlack (handleWebhook1 env st jobId cbF) = false :=
      (handleWebhook1_failure env st jobId cbF hsF).2.2.1
    constructor
    · intro r hr
      have hsuccF2 : hasSuccessSlack
          (handleWebhook1 env (handleWebhook1 env st jobId cbS).store jobId cbF) = false :=
        (handleWebhook1_failure env (handleWebhook1 env st jobId cbS).store jobId cbF hsF).2.2.1
      have htr : (processTrace env st jobId [cbS, cbF]).2 =
          [handleWebhook1 env st jobId cbS,
           handleWebhook1 env (handleWebhook1 env st jobId cbS).store jobId cbF] := rfl
      rw [htr] at hr
      simp only [List.mem_cons, List.not_mem_nil, or_false] at hr
      rcases hr with hr | hr
      · subst hr; exact hsuccS
      · subst hr; exact hsuccF2
    · intro r hr
      have hstF : (handleWebhook1 env st jobId cbF).store = st :=
        (handleWebhook1_failure env st jobId cbF hsF).1
      have hsuccS2 : hasSuccessSlack
          (handleWebhook1 env (handleWebhook1 env st jobId cbF).store jobId cbS) = false := by
        rw [hstF]
        exact hsuccS
      have htr : (processTrace env st jobId [cbF, cbS]).2 =
          [handleWebhook1 env st jobId cbF,
           handleWebhook1 env (handleWebhook1 env st jobId cbF).store jobId cbS] := rfl
      rw [htr] at hr
      simp only [List.mem_cons, List.not_mem_nil, or_false] at hr
      rcases hr with hr | hr
      · subst hr; exact hsuccF
      · subst hr; exact hsuccS2

/-- Concrete instantiation: a whisperx success followed by a pyannote
failure, on a fresh job, never attempts the success notification. -/
theorem success_notification_requires_both_results_witness :
    (⟨putMap emptyStore.audio (jobsKey "j1")
        (.jobRec ⟨"j1", "w", "p", "c", "v", "2", "t"⟩), emptyStore.result⟩ : Store).audio
      (jobsKey "j1") = some (.jobRec ⟨"j1", "w", "p", "c", "v", "2", "t"⟩) ∧
    (∀ r ∈ (processTrace ⟨true, fun _ => false, false, false, false, "", "", ""⟩
        ⟨putMap emptyStore.audio (jobsKey "j1")
           (.jobRec ⟨"j1", "w", "p", "c", "v", "2", "t"⟩), emptyStore.result⟩ "j1"
        [⟨some "whisperx", "succeeded", "", "out", none, none⟩,
         ⟨some "pyannote", "failed", "boom", "", none, none⟩]).2,
      hasSuccessSlack r = false) :=
  ⟨rfl,
   ((success_notification_requires_both_results
      ⟨true, fun _ => false, false, false, false, "", "", ""⟩
      ⟨putMap emptyStore.audio (jobsKey "j1")
         (.jobRec ⟨"j1", "w", "p", "c", "v", "2", "t"⟩), emptyStore.result⟩ "j1"
      ⟨some "whisperx", "succeeded", "", "out", none, none⟩
      ⟨some "pyannote", "failed", "boom", "", none, none⟩
      ⟨"j1", "w", "p", "c", "v", "2", "t"⟩ rfl).2
      rfl (by decide) rfl rfl).1⟩

/-! ## C9 — notification and archival failures -/

/-- C9 counterexample: a thrown exception of the chat-notification send is
not confined — it escapes to the handler's catch-all, which answers 500
`Error` instead of the normal 200 `OK` acknowledgement (here on a completing
callback whose first Slack post rejects and whose second succeeds). -/
theorem notification_failure_counterexample :
    (handleWebhook1 ⟨true, fun i => i == 0, false, false, false, "", "", ""⟩
        ⟨putMap emptyStore.audio (jobsKey "j1")
           (.jobRec ⟨"j1", "w", "p", "c", "v", "2", "t"⟩),
         putMap emptyStore.result (whisperxPath "c" "v" "j1") "prev"⟩
        "j1" ⟨some "pyannote", "succeeded", "", "out", none, none⟩).response =
      some ⟨500, "Error"⟩ ∧
    (handleWebhook1 ⟨true, fun i => i == 0, false, false, false, "", "", ""⟩
        ⟨putMap emptyStore.audio (jobsKey "j1")
           (.jobRec ⟨"j1", "w", "p", "c", "v", "2", "t"⟩),
         putMap emptyStore.result (whisperxPath "c" "v" "j1") "prev"⟩
        "j1" ⟨some "pyannote", "succeeded", "", "out", none, none⟩).bothCompleted =
      true :=
  ⟨rfl, rfl⟩

/-- C9 amended: failures of the archival handoff — a thrown Apps-Script call
or an unsuccessful structured response — are caught inside the handler and
never change its acknowledgement: when no chat-notification send throws, a
success callback with a known record is always answered 200 `OK` (whatever
the handoff outcome), and a failure callback 200 `Job failed`; but a thrown
chat-notification send escapes to the catch-all and yields a 500 response. -/
theorem archival_failure_never_escalates (env : Env1) (st : Store)
    (jobId : String) (cb : Callback) (record : JobRecord)
    (hns : ∀ i, env.slackThrows i = false) :
    (st.audio (jobsKey jobId) = some (.jobRec record) → cb.status = "succeeded" →
      (handleWebhook1 env st jobId cb).response = some ⟨200, "OK"⟩) ∧
    (cb.status ≠ "succeeded" →
      (handleWebhook1 env st jobId cb).response = some ⟨200, "Job failed"⟩) := by
  constructor
  · intro hrec hs
    unfold handleWebhook1 webhookCatch1 sendSlack1
    rw [if_neg (by simp [hs]), hrec]
    dsimp only
    split_ifs <;> simp_all
  · intro hs
    unfold handleWebhook1 webhookCatch1 sendSlack1
    rw [if_pos hs]
    dsimp only
    split_ifs <;> simp_all

/-- Concrete instantiation: a completing callback whose archival handoff
throws is still acknowledged 200 `OK`. -/
theorem archival_failure_never_escalates_witness :
    (∀ i, ((fun _ => false : Nat → Bool)) i = false) ∧
    (handleWebhook1 ⟨true, fun _ => false, true, true, false, "", "", ""⟩
        ⟨putMap emptyStore.audio (jobsKey "j1")
           (.jobRec ⟨"j1", "w", "p", "c", "v", "2", "t"⟩),
         putMap emptyStore.result (whisperxPath "c" "v" "j1") "prev"⟩
        "j1" ⟨some "pyannote", "succeeded", "", "out", none, none⟩).response =
      some ⟨200, "OK"⟩ :=
  ⟨fun _ => rfl,
   (archival_failure_never_escalates
      ⟨true, fun _ => false, true, true, false, "", "", ""⟩
      ⟨putMap emptyStore.audio (jobsKey "j1")
         (.jobRec ⟨"j1", "w", "p", "c", "v", "2", "t"⟩),
       putMap emptyStore.result (whisperxPath "c" "v" "j1") "prev"⟩
      "j1" ⟨some "pyannote", "succeeded", "", "out", none, none⟩
      ⟨"j1", "w", "p", "c", "v", "2", "t"⟩ (fun _ => rfl)).1 rfl rfl⟩

/-! ## C3 — dispatch writes the job record (two-provider) -/

/-- A `projects/...` object path is never the `jobs/...` record key. -/
theorem projectPath_ne_jobsKey (client vid seg jobId : String) :
    projectPath client vid seg ≠ jobsKey jobId := by
  intro h
  have hd : (projectPath client vid seg).data.head? = (jobsKey jobId).data.head? :=
    congrArg (fun s => s.data.head?) h
  have h1 : (projectPath client vid seg).data.head? = some 'p' := rfl
  have h2 : (jobsKey jobId).data.head? = some 'j' := rfl
  rw [h1, h2] at hd
  exact absurd (Option.some.injEq .. ▸ hd) (by decide)

/-- C3 counterexample: in the single-provider deployment, a fully successful
dispatch writes only the media object — no Job Record at all — and returns
the provider's task id as the job id (no separate task-id list), so no Job
Record with matching expected-provider identifiers exists afterwards. -/
theorem dispatch_single_provider_no_record_counterexample :
    (handleUpload2 ⟨"j1", .resp true (some "task1")⟩ emptyStore
        ⟨some ⟨"bytes", "audio/wav"⟩, some "c", some "v"⟩).response =
      ⟨200, .jobStarted "task1"⟩ ∧
    (handleUpload2 ⟨"j1", .resp true (some "task1")⟩ emptyStore
        ⟨some ⟨"bytes", "audio/wav"⟩, some "c", some "v"⟩).writes =
      [BucketWrite.audioPut "projects/c/v/j1.wav"] ∧
    (handleUpload2 ⟨"j1", .resp true (some "task1")⟩ emptyStore
        ⟨some ⟨"bytes", "audio/wav"⟩, some "c", some "v"⟩).store.audio
      (jobsKey "j1") = none ∧
    (handleUpload2 ⟨"j1", .resp true (some "task1")⟩ emptyStore
        ⟨some ⟨"bytes", "audio/wav"⟩, some "c", some "v"⟩).store.audio
      (jobsKey "task1") = none :=
  ⟨rfl, rfl, rfl, rfl⟩

/-- C3 amended: in the two-provider deployment, a valid upload whose two
provider dispatch calls both succeed writes the Job Record exactly once,
returns the job id with exactly one task id per provider, and afterwards the
Job Record exists with expected-provider identifiers equal to the returned
task ids; the single-provider deployment writes no Job Record and returns
the provider task id (falling back to the local job id) with no task-id
list. -/
theorem dispatch_writes_record_two_provider (env : UploadEnv1) (st : Store)
    (form : Form1) (wid pid : String) (ha : form.audio.isSome = true)
    (hc : truthyOpt form.client = true) (hv : truthyOpt form.vid = true)
    (hn : truthyOpt form.numSpeakers = true)
    (hw : env.whisperx = .resp true wid) (hp : env.pyannote = .resp true pid) :
    (handleUpload1 env st form).response = ⟨200, .jobsStarted env.jobId wid pid⟩ ∧
    ((handleUpload1 env st form).writes.count
        (BucketWrite.audioPut (jobsKey env.jobId))) = 1 ∧
    ∃ record : JobRecord,
      (handleUpload1 env st form).store.audio (jobsKey env.jobId) =
        some (.jobRec record) ∧
      record.whisperxId = wid ∧ record.pyannoteId = pid := by
  obtain ⟨f, hf⟩ := Option.isSome_iff_exists.mp ha
  have hne := projectPath_ne_jobsKey (form.client.getD "") (form.vid.getD "")
    (env.jobId ++ ".wav") env.jobId
  refine ⟨?_, ?_, ⟨env.jobId, wid, pid, form.client.getD "", form.vid.getD "",
    form.numSpeakers.getD "", env.createdAt⟩, ?_, rfl, rfl⟩ <;>
    simp [handleUpload1, hf, hc, hv, hn, hw, hp, putMap_self, hne, List.count_cons]

/-- Concrete instantiation of the two-provider dispatch contract. -/
theorem dispatch_writes_record_two_provider_witness :
    (some (⟨"bytes", "audio/wav"⟩ : UploadFile)).isSome = true ∧
    ((handleUpload1 ⟨"j1", .resp true "wtask", .resp true "ptask", "t"⟩ emptyStore
        ⟨some ⟨"bytes", "audio/wav"⟩, some "c", some "v", some "2"⟩).response =
      ⟨200, .jobsStarted "j1" "wtask" "ptask"⟩ ∧
     ((handleUpload1 ⟨"j1", .resp true "wtask", .resp true "ptask", "t"⟩ emptyStore
        ⟨some ⟨"bytes", "audio/wav"⟩, some "c", some "v", some "2"⟩).writes.count
        (BucketWrite.audioPut (jobsKey "j1"))) = 1 ∧
     ∃ record : JobRecord,
      (handleUpload1 ⟨"j1", .resp true "wtask", .resp true "ptask", "t"⟩ emptyStore
        ⟨some ⟨"bytes", "audio/wav"⟩, some "c", some "v", some "2"⟩).store.audio
        (jobsKey "j1") = some (.jobRec record) ∧
      record.whisperxId = "wtask" ∧ record.pyannoteId = "ptask") :=
  ⟨rfl, dispatch_writes_record_two_provider _ _ _ _ _ rfl rfl rfl rfl rfl rfl⟩

/-! ## C4 — subset invariant and completion test -/

/-- Over any sequence of callbacks whose success deliveries carry one of the
two expected provider discriminators, the result bucket changes only at the
two derived partial-result paths of the job. -/
theorem processTrace_result_subset (env : Env1) (jobId : String)
    (record : JobRecord) :
    ∀ (cbs : List Callback) (st : Store),
      st.audio (jobsKey jobId) = some (.jobRec record) →
      (∀ cb ∈ cbs, cb.status = "succeeded" →
        cb.typeParam = some "whisperx" ∨ cb.typeParam = some "pyannote") →
      ∀ k, (processTrace env st jobId cbs).1.result k ≠ st.result k →
        k = whisperxPath record.client record.vid jobId ∨
        k = pyannotePath record.client record.vid jobId := by
  intro cbs
  induction cbs with
  | nil =>
    intro st hrec htags k hk
    exact absurd rfl hk
  | cons cb rest ih =>
    intro st hrec htags k hk
    have hrec2 : (handleWebhook1 env st jobId cb).store.audio (jobsKey jobId) =
        some (.jobRec record) := by
      rw [handleWebhook1_audio]
      exact hrec
    have htags2 : ∀ c ∈ rest, c.status = "succeeded" →
        c.typeParam = some "whisperx" ∨ c.typeParam = some "pyannote" :=
      fun c hc => htags c (List.mem_cons_of_mem _ hc)
    have hunfold : (processTrace env st jobId (cb :: rest)).1 =
        (processTrace env (handleWebhook1 env st jobId cb).store jobId rest).1 := rfl
    rw [hunfold] at hk
    by_cases hmid :
        (processTrace env (handleWebhook1 env st jobId cb).store jobId rest).1.result k =
          (handleWebhook1 env st jobId cb).store.result k
    · rw [hmid] at hk
      by_cases hs : cb.status = "succeeded"
      · have hst := handleWebhook1_success_store env st jobId cb record hs hrec
        rw [hst] at hk
        dsimp only at hk
        by_cases hkfp : k =
            projectPath record.client record.vid (resultFileName cb.typeParam jobId)
        · rcases htags cb (List.mem_cons_self _ _) hs with h | h
          · left; rw [hkfp, h, filePath_whisperx]
          · right; rw [hkfp, h, filePath_pyannote]
        · rw [putMap_ne _ _ _ hkfp] at hk
          exact absurd rfl hk
      · rw [(handleWebhook1_failure env st jobId cb hs).1] at hk
        exact absurd rfl hk
    · exact ih (handleWebhook1 env st jobId cb).store hrec2 htags2 k hmid

/-- Each run of a callback trace reports completion exactly per the
existence test of the two derived paths against its post-write store; a
failure-status callback skips the check (reports nothing) and writes
nothing. -/
theorem processTrace_completed_iff (env : Env1) (jobId : String)
    (record : JobRecord) :
    ∀ (cbs : List Callback) (st : Store),
      st.audio (jobsKey jobId) = some (.jobRec record) →
      List.Forall₂ (fun cb r =>
        (cb.status = "succeeded" →
          r.bothCompleted =
            ((r.store.result (whisperxPath record.client record.vid jobId)).isSome &&
             (r.store.result (pyannotePath record.client record.vid jobId)).isSome)) ∧
        (cb.status ≠ "succeeded" → r.bothCompleted = false ∧ r.writes = []))
        cbs (processTrace env st jobId cbs).2 := by
  intro cbs
  induction cbs with
  | nil => intro st hrec; exact List.Forall₂.nil
  | cons cb rest ih =>
    intro st hrec
    have hrec2 : (handleWebhook1 env st jobId cb).store.audio (jobsKey jobId) =
        some (.jobRec record) := by
      rw [handleWebhook1_audio]
      exact hrec
    have hunfold : (processTrace env st jobId (cb :: rest)).2 =
        handleWebhook1 env st jobId cb ::
          (processTrace env (handleWebhook1 env st jobId cb).store jobId rest).2 := rfl
    rw [hunfold]
    refine List.Forall₂.cons ⟨?_, ?_⟩ (ih _ hrec2)
    · intro hs
      exact handleWebhook1_success_completed env st jobId cb record hs hrec
    · intro hs
      obtain ⟨-, h2, -, -, h5⟩ := handleWebhook1_failure env st jobId cb hs
      exact ⟨h5, h2⟩

/-- C4 counterexample: the `?type=` discriminator of a success callback is
caller-controlled; with `type=foo` the handler persists a partial result at
`projects/c/v/foo_j1.json`, which is outside the set of paths derived from
the job's expected providers — so the persisted set is not a subset of the
derived set for arbitrary callback sequences. -/
theorem partial_result_subset_counterexample :
    ((handleWebhook1 ⟨false, fun _ => false, false, false, false, "", "", ""⟩
        ⟨putMap emptyStore.audio (jobsKey "j1")
           (.jobRec ⟨"j1", "w", "p", "c", "v", "2", "t"⟩), emptyStore.result⟩ "j1"
        ⟨some "foo", "succeeded", "", "out", none, none⟩).store.result
      "projects/c/v/foo_j1.json").isSome = true ∧
    "projects/c/v/foo_j1.json" ≠ whisperxPath "c" "v" "j1" ∧
    "projects/c/v/foo_j1.json" ≠ pyannotePath "c" "v" "j1" := by
  refine ⟨rfl, ?_, ?_⟩ <;> decide

/-- C4 amended: for a job with a record, over every callback sequence whose
success deliveries carry an expected provider discriminator (`whisperx` or
`pyannote`), the persisted partial-result paths stay within the two derived
paths, and every success-callback run reports completion exactly when both
derived paths are present after its write (equivalently, when the persisted
set equals the derived set, given the subset invariant); failure callbacks
write nothing and never report completion. -/
theorem partial_result_subset_invariant (env : Env1) (st : Store)
    (jobId : String) (record : JobRecord) (cbs : List Callback)
    (hrec : st.audio (jobsKey jobId) = some (.jobRec record))
    (htags : ∀ cb ∈ cbs, cb.status = "succeeded" →
        cb.typeParam = some "whisperx" ∨ cb.typeParam = some "pyannote") :
    (∀ k, (processTrace env st jobId cbs).1.result k ≠ st.result k →
        k = whisperxPath record.client record.vid jobId ∨
        k = pyannotePath record.client record.vid jobId) ∧
    List.Forall₂ (fun cb r =>
        (cb.status = "succeeded" →
          r.bothCompleted =
            ((r.store.result (whisperxPath record.client record.vid jobId)).isSome &&
             (r.store.result (pyannotePath record.client record.vid jobId)).isSome)) ∧
        (cb.status ≠ "succeeded" → r.bothCompleted = false ∧ r.writes = []))
      cbs (processTrace env st jobId cbs).2 :=
  ⟨processTrace_result_subset env jobId record cbs st hrec htags,
   processTrace_completed_iff env jobId record cbs st hrec⟩

/-- Concrete instantiation of the amended invariant on a two-callback
sequence. -/
theorem partial_result_subset_invariant_witness :
    (⟨putMap emptyStore.audio (jobsKey "j1")
        (.jobRec ⟨"j1", "w", "p", "c", "v", "2", "t"⟩), emptyStore.result⟩ : Store).audio
      (jobsKey "j1") = some (.jobRec ⟨"j1", "w", "p", "c", "v", "2", "t"⟩) ∧
    (∀ k, (processTrace ⟨true, fun _ => false, false, false, false, "", "", ""⟩
        ⟨putMap emptyStore.audio (jobsKey "j1")
           (.jobRec ⟨"j1", "w", "p", "c", "v", "2", "t"⟩), emptyStore.result⟩ "j1"
        [⟨some "whisperx", "succeeded", "", "outA", none, none⟩,
         ⟨some "pyannote", "succeeded", "", "outB", none, none⟩]).1.result k ≠
        (⟨putMap emptyStore.audio (jobsKey "j1")
            (.jobRec ⟨"j1", "w", "p", "c", "v", "2", "t"⟩),
          emptyStore.result⟩ : Store).result k →
      k = whisperxPath "c" "v" "j1" ∨ k = pyannotePath "c" "v" "j1") :=
  ⟨rfl,
   (partial_result_subset_invariant
      ⟨true, fun _ => false, false, false, false, "", "", ""⟩
      ⟨putMap emptyStore.audio (jobsKey "j1")
         (.jobRec ⟨"j1", "w", "p", "c", "v", "2", "t"⟩), emptyStore.result⟩ "j1"
      ⟨"j1", "w", "p", "c", "v", "2", "t"⟩
      [⟨some "whisperx", "succeeded", "", "outA", none, none⟩,
       ⟨some "pyannote", "succeeded", "", "outB", none, none⟩]
      rfl (by decide)).1⟩

/-! ## C5 — order independence of the two success callbacks -/

/-- C5: for a fresh two-provider job (record present, neither partial result
stored yet), delivering the pyannote success callback before the whisperx
one yields the same final store state, the same success-notification
outcome, and the same handoff-invocation outcome as the reverse order. -/
theorem callback_order_independent (env : Env1) (st : Store) (jobId : String)
    (cbA cbB : Callback) (record : JobRecord)
    (hrec : st.audio (jobsKey jobId) = some (.jobRec record))
    (hsA : cbA.status = "succeeded") (htA : cbA.typeParam = some "whisperx")
    (hsB : cbB.status = "succeeded") (htB : cbB.typeParam = some "pyannote")
    (hwx : st.result (whisperxPath record.client record.vid jobId) = none)
    (hpy : st.result (pyannotePath record.client record.vid jobId) = none) :
    (processTrace env st jobId [cbA, cbB]).1 =
      (processTrace env st jobId [cbB, cbA]).1 ∧
    ((processTrace env st jobId [cbA, cbB]).2.any hasSuccessSlack) =
      ((processTrace env st jobId [cbB, cbA]).2.any hasSuccessSlack) ∧
    ((processTrace env st jobId [cbA, cbB]).2.any hasGasCall) =
      ((processTrace env st jobId [cbB, cbA]).2.any hasGasCall) := by
  have hne := whisperxPath_ne_pyannotePath record.client record.vid jobId
  have hrecA : (handleWebhook1 env st jobId cbA).store.audio (jobsKey jobId) =
      some (.jobRec record) := by
    rw [handleWebhook1_audio]; exact hrec
  have hrecB : (handleWebhook1 env st jobId cbB).store.audio (jobsKey jobId) =
      some (.jobRec record) := by
    rw [handleWebhook1_audio]; exact hrec
  have hstA := handleWebhook1_success_store env st jobId cbA record hsA hrec
  rw [htA, filePath_whisperx] at hstA
  have hstB := handleWebhook1_success_store env st jobId cbB record hsB hrec
  rw [htB, filePath_pyannote] at hstB
  have hstAB := handleWebhook1_success_store env
    (handleWebhook1 env st jobId cbA).store jobId cbB record hsB hrecA
  rw [htB, filePath_pyannote, hstA] at hstAB
  dsimp only at hstAB
  have hstBA := handleWebhook1_success_store env
    (handleWebhook1 env st jobId cbB).store jobId cbA record hsA hrecB
  rw [htA, filePath_whisperx, hstB] at hstBA
  dsimp only at hstBA
  -- completion flags of the four runs
  have hcompA : (handleWebhook1 env st jobId cbA).bothCompleted = false :=
    handleWebhook1_completed_false_of_absent env st jobId cbA record hsA hrec hwx hpy
  have hcompB : (handleWebhook1 env st jobId cbB).bothCompleted = false :=
    handleWebhook1_completed_false_of_absent env st jobId cbB record hsB hrec hwx hpy
  have hcompAB : (handleWebhook1 env (handleWebhook1 env st jobId cbA).store
      jobId cbB).bothCompleted = true := by
    rw [handleWebhook1_success_completed env _ jobId cbB record hsB hrecA, hstA, hstAB]
    dsimp only
    rw [putMap_ne _ _ _ hne, putMap_self, putMap_self]
    rfl
  have hcompBA : (handleWebhook1 env (handleWebhook1 env st jobId cbB).store
      jobId cbA).bothCompleted = true := by
    rw [handleWebhook1_success_completed env _ jobId cbA record hsA hrecB, hstB, hstBA]
    dsimp only
    rw [putMap_ne _ _ _ (Ne.symm hne), putMap_self, putMap_self]
    rfl
  -- success-notification and handoff observables of the four runs
  have hsuA := handleWebhook1_success_hasSuccess env st jobId cbA record hsA hrec
  rw [hcompA] at hsuA
  have hsuB := handleWebhook1_success_hasSuccess env st jobId cbB record hsB hrec
  rw [hcompB] at hsuB
  have hsuAB := handleWebhook1_success_hasSuccess env
    (handleWebhook1 env st jobId cbA).store jobId cbB record hsB hrecA
  rw [hcompAB] at hsuAB
  have hsuBA := handleWebhook1_success_hasSuccess env
    (handleWebhook1 env st jobId cbB).store jobId cbA record hsA hrecB
  rw [hcompBA] at hsuBA
  have hgA := handleWebhook1_success_hasGas env st jobId cbA record hsA hrec
  rw [hcompA] at hgA
  have hgB := handleWebhook1_success_hasGas env st jobId cbB record hsB hrec
  rw [hcompB] at hgB
  have hgAB := handleWebhook1_success_hasGas env
    (handleWebhook1 env st jobId cbA).store jobId cbB record hsB hrecA
  rw [hcompAB] at hgAB
  have hgBA := handleWebhook1_success_hasGas env
    (handleWebhook1 env st jobId cbB).store jobId cbA record hsA hrecB
  rw [hcompBA] at hgBA
  refine ⟨?_, ?_, ?_⟩
  · show (handleWebhook1 env (handleWebhook1 env st jobId cbA).store jobId cbB).store =
      (handleWebhook1 env (handleWebhook1 env st jobId cbB).store jobId cbA).store
    rw [hstA, hstB, hstAB, hstBA,
      putMap_comm st.result cbA.output cbB.output hne]
  · show (hasSuccessSlack (handleWebhook1 env st jobId cbA) ||
        (hasSuccessSlack (handleWebhook1 env
          (handleWebhook1 env st jobId cbA).store jobId cbB) || false)) =
      (hasSuccessSlack (handleWebhook1 env st jobId cbB) ||
        (hasSuccessSlack (handleWebhook1 env
          (handleWebhook1 env st jobId cbB).store jobId cbA) || false))
    rw [hsuA, hsuB, hsuAB, hsuBA]
  · show (hasGasCall (handleWebhook1 env st jobId cbA) ||
        (hasGasCall (handleWebhook1 env
          (handleWebhook1 env st jobId cbA).store jobId cbB) || false)) =
      (hasGasCall (handleWebhook1 env st jobId cbB) ||
        (hasGasCall (handleWebhook1 env
          (handleWebhook1 env st jobId cbB).store jobId cbA) || false))
    rw [hgA, hgB, hgAB, hgBA]

/-- Concrete instantiation of order independence. -/
theorem callback_order_independent_witness :
    (⟨putMap emptyStore.audio (jobsKey "j1")
        (.jobRec ⟨"j1", "w", "p", "c", "v", "2", "t"⟩), emptyStore.result⟩ : Store).audio
      (jobsKey "j1") = some (.jobRec ⟨"j1", "w", "p", "c", "v", "2", "t"⟩) ∧
    ((processTrace ⟨true, fun _ => false, true, false, true, "ju", "su", "pa"⟩
        ⟨putMap emptyStore.audio (jobsKey "j1")
           (.jobRec ⟨"j1", "w", "p", "c", "v", "2", "t"⟩), emptyStore.result⟩ "j1"
        [⟨some "whisperx", "succeeded", "", "outA", none, none⟩,
         ⟨some "pyannote", "succeeded", "", "outB", none, none⟩]).1 =
      (processTrace ⟨true, fun _ => false, true, false, true, "ju", "su", "pa"⟩
        ⟨putMap emptyStore.audio (jobsKey "j1")
           (.jobRec ⟨"j1", "w", "p", "c", "v", "2", "t"⟩), emptyStore.result⟩ "j1"
        [⟨some "pyannote", "succeeded", "", "outB", none, none⟩,
         ⟨some "whisperx", "succeeded", "", "outA", none, none⟩]).1 ∧
     ((processTrace ⟨true, fun _ => false, true, false, true, "ju", "su", "pa"⟩
        ⟨putMap emptyStore.audio (jobsKey "j1")
           (.jobRec ⟨"j1", "w", "p", "c", "v", "2", "t"⟩), emptyStore.result⟩ "j1"
        [⟨some "whisperx", "succeeded", "", "outA", none, none⟩,
         ⟨some "pyannote", "succeeded", "", "outB", none, none⟩]).2.any hasSuccessSlack) =
      ((processTrace ⟨true, fun _ => false, true, false, true, "ju", "su", "pa"⟩
        ⟨putMap emptyStore.audio (jobsKey "j1")
           (.jobRec ⟨"j1", "w", "p", "c", "v", "2", "t"⟩), emptyStore.result⟩ "j1"
        [⟨some "pyannote", "succeeded", "", "outB", none, none⟩,
         ⟨some "whisperx", "succeeded", "", "outA", none, none⟩]).2.any hasSuccessSlack) ∧
     ((processTrace ⟨true, fun _ => false, true, false, true, "ju", "su", "pa"⟩
        ⟨putMap emptyStore.audio (jobsKey "j1")
           (.jobRec ⟨"j1", "w", "p", "c", "v", "2", "t"⟩), emptyStore.result⟩ "j1"
        [⟨some "whisperx", "succeeded", "", "outA", none, none⟩,
         ⟨some "pyannote", "succeeded", "", "outB", none, none⟩]).2.any hasGasCall) =
      ((processTrace ⟨true, fun _ => false, true, false, true, "ju", "su", "pa"⟩
        ⟨putMap emptyStore.audio (jobsKey "j1")
           (.jobRec ⟨"j1", "w", "p", "c", "v", "2", "t"⟩), emptyStore.result⟩ "j1"
        [⟨some "pyannote", "succeeded", "", "outB", none, none⟩,
         ⟨some "whisperx", "succeeded", "", "outA", none, none⟩]).2.any hasGasCall)) :=
  ⟨rfl,
   callback_order_independent
     ⟨true, fun _ => false, true, false, true, "ju", "su", "pa"⟩
     ⟨putMap emptyStore.audio (jobsKey "j1")
        (.jobRec ⟨"j1", "w", "p", "c", "v", "2", "t"⟩), emptyStore.result⟩ "j1"
     ⟨some "whisperx", "succeeded", "", "outA", none, none⟩
     ⟨some "pyannote", "succeeded", "", "outB", none, none⟩
     ⟨"j1", "w", "p", "c", "v", "2", "t"⟩ rfl rfl rfl rfl rfl rfl rfl⟩

end AudioWorker
